import Mathlib

/-
Shallow embedding of crates/runc/src/lib.rs: the runc command facade with a
synchronous client (Client) and a concurrent client (AsyncClient).  Pure data
flow is modelled directly; OS interaction (spawning, waiting, file writes) is
modelled by explicit outcome values supplied through a world record, and the
side effects a call performs are recorded as an ordered event trace.
-/

namespace RuncSpec

/-- A byte in the continuation range 0x80 to 0xBF of UTF-8. -/
def isCont (b : UInt8) : Bool := 0x80 ≤ b && b ≤ 0xBF

/-- UTF-8 decoding of a byte list, mirroring the validation performed by the
Rust standard library String from_utf8 conversion: ASCII, two, three and four
byte sequences, rejecting continuation errors, overlong forms, surrogate
code points and code points above 0x10FFFF.  The fuel argument only bounds
recursion; it is instantiated with the length of the list. -/
def utf8CharsAux : Nat → List UInt8 → Option (List Char)
  | _, [] => some []
  | 0, _ :: _ => none
  | fuel + 1, b0 :: rest =>
    if b0 ≤ 0x7F then
      (utf8CharsAux fuel rest).map (Char.ofNat b0.toNat :: ·)
    else if 0xC2 ≤ b0 && b0 ≤ 0xDF then
      match rest with
      | b1 :: rest2 =>
        if isCont b1 then
          (utf8CharsAux fuel rest2).map
            (Char.ofNat ((b0.toNat - 0xC0) * 64 + (b1.toNat - 0x80)) :: ·)
        else none
      | [] => none
    else if 0xE0 ≤ b0 && b0 ≤ 0xEF then
      match rest with
      | b1 :: b2 :: rest3 =>
        let b1ok :=
          if b0 = 0xE0 then 0xA0 ≤ b1 && b1 ≤ 0xBF
          else if b0 = 0xED then 0x80 ≤ b1 && b1 ≤ 0x9F
          else isCont b1
        if b1ok && isCont b2 then
          (utf8CharsAux fuel rest3).map
            (Char.ofNat ((b0.toNat - 0xE0) * 4096 +
              (b1.toNat - 0x80) * 64 + (b2.toNat - 0x80)) :: ·)
        else none
      | _ => none
    else if 0xF0 ≤ b0 && b0 ≤ 0xF4 then
      match rest with
      | b1 :: b2 :: b3 :: rest4 =>
        let b1ok :=
          if b0 = 0xF0 then 0x90 ≤ b1 && b1 ≤ 0xBF
          else if b0 = 0xF4 then 0x80 ≤ b1 && b1 ≤ 0x8F
          else isCont b1
        if b1ok && isCont b2 && isCont b3 then
          (utf8CharsAux fuel rest4).map
            (Char.ofNat ((b0.toNat - 0xF0) * 262144 + (b1.toNat - 0x80) * 4096 +
              (b2.toNat - 0x80) * 64 + (b3.toNat - 0x80)) :: ·)
        else none
      | _ => none
    else none

/-- Decode a byte list as UTF-8, or fail as Rust String from_utf8 fails. -/
def utf8Decode? (bs : List UInt8) : Option String :=
  (utf8CharsAux bs.length bs).map String.mk

/-- The exit status of an OS process.  code is the numeric exit code; none
models termination by a signal.  Rust ExitStatus success is code zero. -/
structure ExitStatus where
  code : Option Int
deriving DecidableEq, Repr

def ExitStatus.success (s : ExitStatus) : Bool := s.code == some 0

/-- Modelled from the spec and the usages in lib.rs: the error enum of the
error module, which is not among the given sources.  Constructors follow the
error taxonomy of the spec and the Error variants applied in lib.rs:
NotFound (binary not located), ProcessSpawnFailed, InvalidCommand,
JsonDeserializationFailed, SpecFileCreationFailed, UnavailableIo (stdio
attachment could not be wired), CommandFailed carrying status and both
captured streams, Unimplemented and MissingContainerStats. -/
inductive Error where
  | NotFound
  | ProcessSpawnFailed (e : String)
  | InvalidCommand (e : String)
  | JsonDeserializationFailed (e : String)
  | SpecFileCreationFailed (e : String)
  | UnavailableIo (e : String)
  | CommandFailed (status : ExitStatus) (stdout : String) (stderr : String)
  | Unimplemented (verb : String)
  | MissingContainerStats
deriving DecidableEq, Repr

/-- Modelled from the spec: the two log formats of the log-format global
option, rendered as the text constants of the utils module. -/
inductive LogFormat where
  | Json
  | Text
deriving DecidableEq, Repr

def LogFormat.toStr : LogFormat → String
  | .Json => "json"
  | .Text => "text"

/-- Stdio configuration of one stream of a command, as set by the builders:
std commands leave the default, tokio commands set null and inherit. -/
inductive StdioCfg where
  | dflt
  | null
  | inherit
  | piped
deriving DecidableEq, Repr

/-- A fully assembled command: program path, ordered arguments, the set of
environment variables removed before spawn, the stdio configuration of each
stream, and whether a caller-supplied stdio attachment has been wired into
it (the effect of the set operation of the attachment). -/
structure Command where
  program : String
  args : List String
  env_removed : List String
  stdin : StdioCfg
  stdout : StdioCfg
  stderr : StdioCfg
  io_attached : Bool
deriving DecidableEq, Repr

/-- The Runc value produced by ConfigBuilder build_runc: the resolved binary
path and the global arguments prepended to every verb invocation.  The
timeout field of the builder is not carried over, exactly as in the source. -/
structure Runc where
  command : String
  args : List String
deriving DecidableEq, Repr

/-- Runc command: concatenate the global args with the verb args and remove
NOTIFY_SOCKET from the child environment (std process command). -/
def Runc.commandOf (r : Runc) (args : List String) : Command :=
  { program := r.command
    args := r.args ++ args
    env_removed := ["NOTIFY_SOCKET"]
    stdin := .dflt
    stdout := .dflt
    stderr := .dflt
    io_attached := false }

/-- Runc command_async: as commandOf, additionally setting stdin to null and
stdout and stderr to inherit (tokio process command). -/
def Runc.command_async (r : Runc) (args : List String) : Command :=
  { program := r.command
    args := r.args ++ args
    env_removed := ["NOTIFY_SOCKET"]
    stdin := .null
    stdout := .inherit
    stderr := .inherit
    io_attached := false }

/-- The synchronous client: a newtype over Runc. -/
structure Client where
  runc : Runc
deriving DecidableEq, Repr

/-- The concurrent client: a newtype over Runc. -/
structure AsyncClient where
  runc : Runc
deriving DecidableEq, Repr

def Client.command (c : Client) (args : List String) : Command :=
  c.runc.commandOf args

def AsyncClient.command (a : AsyncClient) (args : List String) : Command :=
  a.runc.command_async args

/-- The raw outcome of a completed child: exit status and the captured bytes
of both streams (Rust std process Output). -/
structure ProcOutput where
  status : ExitStatus
  stdout : List UInt8
  stderr : List UInt8
deriving DecidableEq, Repr

/-- A successfully spawned child: its pid and the outcome of waiting for it
with captured output, which may itself fail with an OS error. -/
structure Child where
  pid : Nat
  wait_with_output : Except String ProcOutput

/-- The monitor Exit record delivered to a waiter: pid and exit status. -/
structure Exit where
  pid : Nat
  status : ExitStatus
deriving DecidableEq, Repr

/-- A computation that either panicked (an unwrap or expect failed) or
produced a value. -/
inductive PanicOr (α : Type) where
  | panicked (msg : String)
  | value (v : α)

def PanicOr.isPanicked {α : Type} : PanicOr α → Bool
  | .panicked _ => true
  | .value _ => false

/-- The public result of a completed invocation: pid, exit status and the
output text requested by the caller. -/
structure Response where
  pid : Nat
  status : ExitStatus
  output : String
deriving DecidableEq, Repr

/-- Client launch, from lib.rs: spawn (failure becomes ProcessSpawnFailed),
wait with output (failure becomes InvalidCommand), convert both streams from
UTF-8 with unwrap (invalid bytes panic), then classify: on success status a
Response whose output is stdout plus stderr when combined_output is set and
stdout alone otherwise; on any other status a CommandFailed error carrying
the status and both captured streams.  The spawn outcome stands for the
result of cmd spawn on the operating system. -/
def Client.launch (spawn_result : Except String Child) (combined_output : Bool) :
    PanicOr (Except Error Response) :=
  match spawn_result with
  | .error e => .value (.error (.ProcessSpawnFailed e))
  | .ok child =>
    match child.wait_with_output with
    | .error e => .value (.error (.InvalidCommand e))
    | .ok result =>
      let status := result.status
      match utf8Decode? result.stdout with
      | none => .panicked "called unwrap on a from_utf8 Err value"
      | some stdout =>
        match utf8Decode? result.stderr with
        | none => .panicked "called unwrap on a from_utf8 Err value"
        | some stderr =>
          if status.success then
            if combined_output then
              .value (.ok { pid := child.pid, status := status, output := stdout ++ stderr })
            else
              .value (.ok { pid := child.pid, status := status, output := stdout })
          else
            .value (.error (.CommandFailed status stdout stderr))

/-- AsyncClient launch, from lib.rs: the joined outcome of the monitor start
and wait futures (failure of the join becomes InvalidCommand); both streams
are converted from UTF-8 with expect (invalid bytes panic); classification is
as in the synchronous launch, with the pid taken from the monitor Exit. -/
def AsyncClient.launch (joined : Except String (ProcOutput × Exit))
    (combined_output : Bool) : PanicOr (Except Error Response) :=
  match joined with
  | .error e => .value (.error (.InvalidCommand e))
  | .ok (out, ex) =>
    match utf8Decode? out.stdout with
    | none => .panicked "returned non-utf8 characters from container process."
    | some stdout =>
      match utf8Decode? out.stderr with
      | none => .panicked "returned non-utf8 characters from container process."
      | some stderr =>
        if out.status.success then
          if combined_output then
            .value (.ok { pid := ex.pid, status := out.status, output := stdout ++ stderr })
          else
            .value (.ok { pid := ex.pid, status := out.status, output := stdout })
        else
          .value (.error (.CommandFailed out.status stdout stderr))

/-- The global options builder, from lib.rs.  Field names follow the source
struct; paths are modelled as strings and the timeout in milliseconds as a
natural number. -/
structure ConfigBuilder where
  command : Option String
  root : Option String
  debug : Bool
  log : Option String
  log_format : LogFormat
  set_pgid : Bool
  systemd_cgroup : Bool
  rootless : Option Bool
  timeout : Nat
deriving DecidableEq, Repr

/-- The root flag group of build_runc: on a set root option, the flag and the
absolutized path; the absolutization may fail. -/
def root_args (root : Option String) (abs_string : String → Except Error String) :
    Except Error (List String) :=
  match root with
  | none => .ok []
  | some r =>
    match abs_string r with
    | .error e => .error e
    | .ok p => .ok ["--root", p]

/-- The log flag group of build_runc: on a set log option, the flag and the
absolutized path; the absolutization may fail. -/
def log_args (log : Option String) (abs_string : String → Except Error String) :
    Except Error (List String) :=
  match log with
  | none => .ok []
  | some l =>
    match abs_string l with
    | .error e => .error e
    | .ok p => .ok ["--log", p]

/-- ConfigBuilder build_runc, from lib.rs: resolve the binary (NotFound when
binary_path yields nothing, defaulting the name to runc), then push the
global flag groups in source order: root, debug, log, log-format (always),
systemd-cgroup, rootless.  The push sequence of the source is rendered as
the concatenation of the per-flag groups, in the same order and aborting on
the same absolutization failures.  binary_path and abs_string stand for the
two helpers of the utils module, which is not among the given sources; the
result carries no trace of the timeout field. -/
def ConfigBuilder.build_runc (self : ConfigBuilder)
    (binary_path : String → Option String)
    (abs_string : String → Except Error String) : Except Error Runc :=
  match binary_path (self.command.getD "runc") with
  | none => .error .NotFound
  | some command =>
    match root_args self.root abs_string with
    | .error e => .error e
    | .ok a1 =>
      let a2 := if self.debug then ["--debug"] else []
      match log_args self.log abs_string with
      | .error e => .error e
      | .ok a3 =>
        let a4 := ["--log-format", self.log_format.toStr]
        let a5 := if self.systemd_cgroup then ["--systemd-cgroup"] else []
        let a6 := match self.rootless with
          | some mode => ["--rootless=" ++ (if mode then "true" else "false")]
          | none => []
        .ok { command := command, args := a1 ++ a2 ++ a3 ++ a4 ++ a5 ++ a6 }

/-- ConfigBuilder build: build_runc wrapped into the synchronous client. -/
def ConfigBuilder.build (self : ConfigBuilder)
    (binary_path : String → Option String)
    (abs_string : String → Except Error String) : Except Error Client :=
  (self.build_runc binary_path abs_string).map Client.mk

/-- ConfigBuilder build_async: build_runc wrapped into the concurrent
client. -/
def ConfigBuilder.build_async (self : ConfigBuilder)
    (binary_path : String → Option String)
    (abs_string : String → Except Error String) : Except Error AsyncClient :=
  (self.build_runc binary_path abs_string).map AsyncClient.mk

/-- Client pause issues the pause verb followed by the id. -/
def Client.pause_command (c : Client) (id : String) : Command :=
  c.command ["pause", id]

/-- Client resume, from lib.rs: it also issues the pause verb followed by
the id. -/
def Client.resume_command (c : Client) (id : String) : Command :=
  c.command ["pause", id]

/-- AsyncClient pause issues the pause verb followed by the id. -/
def AsyncClient.pause_command (a : AsyncClient) (id : String) : Command :=
  a.command ["pause", id]

/-- AsyncClient resume, from lib.rs: it also issues the pause verb followed
by the id. -/
def AsyncClient.resume_command (a : AsyncClient) (id : String) : Command :=
  a.command ["pause", id]

/-- An observable side effect of one facade call, in order of occurrence:
a file write, the start of a child process running a given command, and the
release hook of a stdio attachment (close_after_start). -/
inductive Event where
  | wroteFile (path : String) (contents : String)
  | spawned (cmd : Command)
  | closedAfterStart
deriving DecidableEq, Repr

/-- The OS-dependent outcomes a synchronous call can observe: what spawning
a given command does, the next temporary filename of the runtime directory
(utils temp_filename_in_runtime_dir, not among the given sources), the
outcome of a file write, and path absolutization (utils abs_string). -/
structure SyncWorld where
  spawn : Command → Except String Child
  temp_filename : Except Error String
  write_file : String → String → Except String Unit
  abs_string : String → Except Error String

/-- Client launch with its event trace: a spawned event exactly when the OS
accepted the spawn, and the launch classification of the outcome. -/
def Client.launchTraced (w : SyncWorld) (cmd : Command) (combined_output : Bool) :
    List Event × PanicOr (Except Error Response) :=
  ((match w.spawn cmd with
    | .error _ => []
    | .ok _ => [Event.spawned cmd]),
   Client.launch (w.spawn cmd) combined_output)

/-- Modelled from the spec: the create options struct of the options module,
which is not among the given sources.  Toward the core only three aspects
matter: whether a stdio attachment is present, the outcome of wiring it into
a command (the set operation), and the verb arguments the options contribute
(the args method, which may fail). -/
structure CreateOpts where
  hasIoAttachment : Bool
  set_result : Except String Unit
  opt_args : Except Error (List String)

/-- The arguments contributed by an optional options value: none contributes
the empty list. -/
def optArgsOf (opts : Option CreateOpts) : Except Error (List String) :=
  match opts with
  | none => .ok []
  | some o => o.opt_args

/-- Client create, from lib.rs: assemble create, bundle flag, absolutized
bundle path, option args and the id; when the options carry a stdio
attachment, wire it into the assembled command (set, failure becoming
UnavailableIo), launch that wired command with combined output, and invoke
close_after_start only once the launch has returned successfully; without an
attachment, launch the assembled command. -/
def Client.create (c : Client) (w : SyncWorld) (id bundle : String)
    (opts : Option CreateOpts) : List Event × PanicOr (Except Error Response) :=
  match w.abs_string bundle with
  | .error e => ([], .value (.error e))
  | .ok babs =>
    match optArgsOf opts with
    | .error e => ([], .value (.error e))
    | .ok extra =>
      let args := ["create", "--bundle", babs] ++ extra ++ [id]
      let cmd := c.command args
      match opts with
      | some o =>
        if o.hasIoAttachment then
          match o.set_result with
          | .error e => ([], .value (.error (.UnavailableIo e)))
          | .ok _ =>
            let wired := { cmd with io_attached := true }
            let traced := Client.launchTraced w wired true
            match traced.2 with
            | .value (.ok r) => (traced.1 ++ [Event.closedAfterStart], .value (.ok r))
            | other => (traced.1, other)
        else Client.launchTraced w cmd true
      | none => Client.launchTraced w cmd true

/-- Client run, from lib.rs: assemble run, bundle flag, option args,
absolutized bundle path and the id; when the options carry a stdio
attachment, wire it into the first assembled command (set, failure becoming
UnavailableIo) — but then launch a freshly rebuilt command from the same
argument list, exactly as the source does, so the wired command is dropped;
close_after_start is never invoked on this path. -/
def Client.run (c : Client) (w : SyncWorld) (id bundle : String)
    (opts : Option CreateOpts) : List Event × PanicOr (Except Error Response) :=
  match optArgsOf opts with
  | .error e => ([], .value (.error e))
  | .ok extra =>
    match w.abs_string bundle with
    | .error e => ([], .value (.error e))
    | .ok babs =>
      let args := ["run", "--bundle"] ++ extra ++ [babs, id]
      let cmd := c.command args
      match opts with
      | some o =>
        if o.hasIoAttachment then
          match o.set_result with
          | .error e => ([], .value (.error (.UnavailableIo e)))
          | .ok _ =>
            let _wired := { cmd with io_attached := true }
            Client.launchTraced w (c.command args) true
        else Client.launchTraced w (c.command args) true
      | none => Client.launchTraced w (c.command args) true

/-- Client update, from lib.rs: obtain a fresh temporary filename, serialize
the resource spec (failure becoming JsonDeserializationFailed), write it to
the file (failure becoming SpecFileCreationFailed, with no spawn), then
launch the update verb with the resources flag, the filename and the id.
The serialized argument stands for the serde_json to_string outcome on the
caller-supplied resource struct. -/
def Client.update (c : Client) (w : SyncWorld) (serialized : Except String String)
    (id : String) : List Event × PanicOr (Except Error Unit) :=
  match w.temp_filename with
  | .error e => ([], .value (.error e))
  | .ok filename =>
    match serialized with
    | .error e => ([], .value (.error (.JsonDeserializationFailed e)))
    | .ok spec_json =>
      match w.write_file filename spec_json with
      | .error e => ([], .value (.error (.SpecFileCreationFailed e)))
      | .ok _ =>
        let args := ["update", "--resources", filename, id]
        let traced := Client.launchTraced w (c.command args) true
        (Event.wroteFile filename spec_json :: traced.1,
         match traced.2 with
         | .value (.ok _) => .value (.ok ())
         | .value (.error e) => .value (.error e)
         | .panicked m => .panicked m)

/-- The OS-dependent outcomes a concurrent call can observe.  The spawn
field gives the joined outcome of the monitor start and wait futures for a
given command; per the spec of the monitor, a spawn refusal fails the join
immediately, so an error stands for no process having been started.  The
remaining fields are as in SyncWorld. -/
structure AsyncWorld where
  spawn : Command → Except String (ProcOutput × Exit)
  temp_filename : Except Error String
  write_file : String → String → Except String Unit
  abs_string : String → Except Error String

/-- AsyncClient launch with its event trace: a spawned event exactly when
the monitor accepted the spawn, and the launch classification of the joined
outcome. -/
def AsyncClient.launchTraced (w : AsyncWorld) (cmd : Command)
    (combined_output : Bool) : List Event × PanicOr (Except Error Response) :=
  ((match w.spawn cmd with
    | .error _ => []
    | .ok _ => [Event.spawned cmd]),
   AsyncClient.launch (w.spawn cmd) combined_output)

/-- AsyncClient update, from lib.rs: same sequencing as the synchronous
update, launched through the monitor. -/
def AsyncClient.update (a : AsyncClient) (w : AsyncWorld)
    (serialized : Except String String) (id : String) :
    List Event × PanicOr (Except Error Unit) :=
  match w.temp_filename with
  | .error e => ([], .value (.error e))
  | .ok filename =>
    match serialized with
    | .error e => ([], .value (.error (.JsonDeserializationFailed e)))
    | .ok spec_json =>
      match w.write_file filename spec_json with
      | .error e => ([], .value (.error (.SpecFileCreationFailed e)))
      | .ok _ =>
        let args := ["update", "--resources", filename, id]
        let traced := AsyncClient.launchTraced w (a.command args) true
        (Event.wroteFile filename spec_json :: traced.1,
         match traced.2 with
         | .value (.ok _) => .value (.ok ())
         | .value (.error e) => .value (.error e)
         | .panicked m => .panicked m)

/-- A concrete child outcome: pid 5, exit 0, stdout bytes of ab, stderr c. -/
def outW : ProcOutput :=
  { status := { code := some 0 }, stdout := [97, 98], stderr := [99] }

def childW : Child := { pid := 5, wait_with_output := .ok outW }

def exitW : Exit := { pid := 5, status := { code := some 0 } }

/-- A concrete child outcome whose stdout bytes are not valid UTF-8. -/
def outBad : ProcOutput := { status := { code := some 0 }, stdout := [255], stderr := [] }

def childBad : Child := { pid := 3, wait_with_output := .ok outBad }

/-- A concrete world in which every spawn succeeds with exit 0 and empty
streams, temporary filenames resolve, writes succeed and paths absolutize to
themselves. -/
def wOK : SyncWorld :=
  { spawn := fun _ => .ok
      { pid := 7
        wait_with_output := .ok { status := { code := some 0 }, stdout := [], stderr := [] } }
    temp_filename := .ok "/tmp/runc-resources"
    write_file := fun _ _ => .ok ()
    abs_string := fun s => .ok s }

/-- A concrete world in which the OS refuses every spawn. -/
def wRefuse : SyncWorld :=
  { spawn := fun _ => .error "No such file or directory"
    temp_filename := .ok "/tmp/runc-resources"
    write_file := fun _ _ => .ok ()
    abs_string := fun s => .ok s }

/-- A concrete concurrent world in which every spawn succeeds with exit 0
and empty streams. -/
def awOK : AsyncWorld :=
  { spawn := fun _ => .ok
      ({ status := { code := some 0 }, stdout := [], stderr := [] },
       { pid := 7, status := { code := some 0 } })
    temp_filename := .ok "/tmp/runc-resources"
    write_file := fun _ _ => .ok ()
    abs_string := fun s => .ok s }

/-- Create options carrying a stdio attachment that wires up successfully
and contributes no extra arguments. -/
def optsIo : CreateOpts :=
  { hasIoAttachment := true, set_result := .ok (), opt_args := .ok [] }

/-- A concrete synchronous client over the bare runc binary with no global
flags. -/
def clientW : Client := ⟨⟨"runc", []⟩⟩

/-- A concrete configuration exercising set and unset global options. -/
def cfgW : ConfigBuilder :=
  { command := none
    root := some "/run/user/runc"
    debug := true
    log := none
    log_format := .Json
    set_pgid := false
    systemd_cgroup := false
    rootless := some false
    timeout := 5000 }

def bpW : String → Option String := fun s => some s

def absW : String → Except Error String := fun s => .ok s

/-- The Runc value cfgW builds to. -/
def runcW : Runc :=
  { command := "runc"
    args := ["--root", "/run/user/runc", "--debug", "--log-format", "json",
             "--rootless=false"] }

/-- The global flag list as the spec words it: root group, debug group, log
group, the always-present log-format pair, systemd-cgroup group and rootless
group, in that fixed order, with unset options contributing nothing. -/
def spec_global_flags (root : Option String) (debug : Bool) (log : Option String)
    (fmt : LogFormat) (systemd_cgroup : Bool) (rootless : Option Bool) : List String :=
  (match root with | some r => ["--root", r] | none => []) ++
  (if debug then ["--debug"] else []) ++
  (match log with | some l => ["--log", l] | none => []) ++
  ["--log-format", fmt.toStr] ++
  (if systemd_cgroup then ["--systemd-cgroup"] else []) ++
  (match rootless with
   | some b => ["--rootless=" ++ (if b then "true" else "false")]
   | none => [])

/-- Absolutization lifted over an optional path. -/
def opt_abs (abs_string : String → Except Error String) :
    Option String → Except Error (Option String)
  | none => .ok none
  | some p =>
    match abs_string p with
    | .error e => .error e
    | .ok q => .ok (some q)

/-- A concrete concurrent client over the bare runc binary. -/
def asyncClientW : AsyncClient := ⟨⟨"runc", []⟩⟩

/-- On a successful root flag group, the group is the absolutized root flag
pair of the set option, or empty when unset. -/
theorem root_args_ok (root : Option String) (abs : String → Except Error String)
    (a : List String) (h : root_args root abs = .ok a) :
    ∃ rr, opt_abs abs root = .ok rr ∧
      a = (match rr with | some p => ["--root", p] | none => []) := by
  cases root with
  | none =>
    injection h with h2
    exact ⟨none, rfl, h2.symm⟩
  | some p =>
    simp only [root_args] at h
    cases habs : abs p with
    | error e => simp only [habs] at h; exact absurd h (by simp)
    | ok q =>
      simp only [habs] at h
      injection h with h2
      exact ⟨some q, by simp [opt_abs, habs], h2.symm⟩

/-- On a successful log flag group, the group is the absolutized log flag
pair of the set option, or empty when unset. -/
theorem log_args_ok (log : Option String) (abs : String → Except Error String)
    (a : List String) (h : log_args log abs = .ok a) :
    ∃ lr, opt_abs abs log = .ok lr ∧
      a = (match lr with | some p => ["--log", p] | none => []) := by
  cases log with
  | none =>
    injection h with h2
    exact ⟨none, rfl, h2.symm⟩
  | some p =>
    simp only [log_args] at h
    cases habs : abs p with
    | error e => simp only [habs] at h; exact absurd h (by simp)
    | ok q =>
      simp only [habs] at h
      injection h with h2
      exact ⟨some q, by simp [opt_abs, habs], h2.symm⟩

/-- C1: for every command run through the synchronous or the concurrent
launch path whose streams decode from UTF-8: on a zero exit status the call
returns a Response carrying the child pid, the exit status, and stdout plus
stderr when the combined flag is set or stdout alone otherwise; on a
non-zero status the call returns a CommandFailed error carrying exactly the
exit status, the full captured stdout and the full captured stderr. -/
theorem launch_classifies_by_exit_status
    (child : Child) (out : ProcOutput) (so se : String) (combined : Bool) (ex : Exit)
    (hw : child.wait_with_output = .ok out)
    (hso : utf8Decode? out.stdout = some so)
    (hse : utf8Decode? out.stderr = some se) :
    (out.status.success = true →
      Client.launch (.ok child) combined =
        .value (.ok { pid := child.pid, status := out.status,
                      output := if combined then so ++ se else so }) ∧
      AsyncClient.launch (.ok (out, ex)) combined =
        .value (.ok { pid := ex.pid, status := out.status,
                      output := if combined then so ++ se else so })) ∧
    (out.status.success = false →
      Client.launch (.ok child) combined =
        .value (.error (.CommandFailed out.status so se)) ∧
      AsyncClient.launch (.ok (out, ex)) combined =
        .value (.error (.CommandFailed out.status so se))) := by
  cases combined <;>
    exact ⟨fun h => by simp [Client.launch, AsyncClient.launch, hw, hso, hse, h],
           fun h => by simp [Client.launch, AsyncClient.launch, hw, hso, hse, h]⟩

/-- C1 witness: the classification evaluated at a concrete child with exit 0
and output bytes decoding to ab and c. -/
theorem launch_classifies_by_exit_status_witness :
    childW.wait_with_output = .ok outW ∧
    utf8Decode? outW.stdout = some "ab" ∧
    utf8Decode? outW.stderr = some "c" ∧
    ((outW.status.success = true →
      Client.launch (.ok childW) true =
        .value (.ok { pid := childW.pid, status := outW.status,
                      output := if true then "ab" ++ "c" else "ab" }) ∧
      AsyncClient.launch (.ok (outW, exitW)) true =
        .value (.ok { pid := exitW.pid, status := outW.status,
                      output := if true then "ab" ++ "c" else "ab" })) ∧
    (outW.status.success = false →
      Client.launch (.ok childW) true =
        .value (.error (.CommandFailed outW.status "ab" "c")) ∧
      AsyncClient.launch (.ok (outW, exitW)) true =
        .value (.error (.CommandFailed outW.status "ab" "c")))) :=
  ⟨rfl, by decide, by decide,
   launch_classifies_by_exit_status childW outW "ab" "c" true exitW rfl
     (by decide) (by decide)⟩

/-- C4: the resume operation issues exactly the command the pause operation
issues on the same id, namely the pause verb followed by the id, in both the
synchronous and the concurrent client. -/
theorem resume_issues_pause_arguments (c : Client) (a : AsyncClient) (id : String) :
    Client.resume_command c id = Client.pause_command c id ∧
    Client.pause_command c id = c.command ["pause", id] ∧
    AsyncClient.resume_command a id = AsyncClient.pause_command a id ∧
    AsyncClient.pause_command a id = a.command ["pause", id] :=
  ⟨rfl, rfl, rfl, rfl⟩

/-- C5: when the OS refuses to create the process, the synchronous launch
returns a ProcessSpawnFailed error, no process is recorded as started (so
nothing is retried), and that error is distinct from every CommandFailed
error. -/
theorem spawn_refusal_distinct_error
    (e : String) (combined : Bool) (w : SyncWorld) (cmd : Command)
    (h : w.spawn cmd = .error e) :
    Client.launch (.error e) combined = .value (.error (.ProcessSpawnFailed e)) ∧
    Client.launchTraced w cmd combined =
      ([], .value (.error (.ProcessSpawnFailed e))) ∧
    (∀ st so se, Error.ProcessSpawnFailed e ≠ Error.CommandFailed st so se) := by
  refine ⟨rfl, ?_, ?_⟩
  · simp [Client.launchTraced, Client.launch, h]
  · intro st so se hc
    exact Error.noConfusion hc

/-- C5 witness: the spawn refusal evaluated in a world refusing every
spawn. -/
theorem spawn_refusal_distinct_error_witness :
    wRefuse.spawn (clientW.command ["create", "--bundle", "/b", "c1"]) =
      .error "No such file or directory" ∧
    (Client.launch (.error "No such file or directory") true =
      .value (.error (.ProcessSpawnFailed "No such file or directory")) ∧
    Client.launchTraced wRefuse (clientW.command ["create", "--bundle", "/b", "c1"]) true =
      ([], .value (.error (.ProcessSpawnFailed "No such file or directory"))) ∧
    (∀ st so se, Error.ProcessSpawnFailed "No such file or directory" ≠
      Error.CommandFailed st so se)) :=
  ⟨rfl, spawn_refusal_distinct_error "No such file or directory" true wRefuse
    (clientW.command ["create", "--bundle", "/b", "c1"]) rfl⟩

/-- C6: every command assembled by either client builder removes the
NOTIFY_SOCKET environment variable, so the child is spawned without it. -/
theorem notify_socket_removed_before_spawn (r : Runc) (args : List String) :
    (r.commandOf args).env_removed = ["NOTIFY_SOCKET"] ∧
    (r.command_async args).env_removed = ["NOTIFY_SOCKET"] :=
  ⟨rfl, rfl⟩

/-- C9: the configured timeout is discarded by the builder — two
configurations differing only in the timeout build the same Runc and the
same concurrent client, so no command execution can have the configured
timeout applied to it. -/
theorem async_timeout_discarded
    (cfg : ConfigBuilder) (t1 t2 : Nat) (bp : String → Option String)
    (abs : String → Except Error String) :
    ConfigBuilder.build_runc { cfg with timeout := t1 } bp abs =
      ConfigBuilder.build_runc { cfg with timeout := t2 } bp abs ∧
    ConfigBuilder.build_async { cfg with timeout := t1 } bp abs =
      ConfigBuilder.build_async { cfg with timeout := t2 } bp abs := by
  cases cfg
  exact ⟨rfl, rfl⟩

/-- C10: both launch paths return a value only when both captured streams
are valid UTF-8; a child writing invalid bytes to stdout or stderr makes the
call panic rather than return an error value. -/
theorem launch_panics_on_invalid_utf8
    (child : Child) (out : ProcOutput) (combined : Bool) (ex : Exit)
    (hw : child.wait_with_output = .ok out) :
    (utf8Decode? out.stdout = none →
      (Client.launch (.ok child) combined).isPanicked = true ∧
      (AsyncClient.launch (.ok (out, ex)) combined).isPanicked = true) ∧
    (∀ so, utf8Decode? out.stdout = some so → utf8Decode? out.stderr = none →
      (Client.launch (.ok child) combined).isPanicked = true ∧
      (AsyncClient.launch (.ok (out, ex)) combined).isPanicked = true) ∧
    (∀ so se, utf8Decode? out.stdout = some so → utf8Decode? out.stderr = some se →
      (Client.launch (.ok child) combined).isPanicked = false ∧
      (AsyncClient.launch (.ok (out, ex)) combined).isPanicked = false) := by
  refine ⟨fun h => ?_, fun so hso hse => ?_, fun so se hso hse => ?_⟩
  · simp [Client.launch, AsyncClient.launch, hw, h, PanicOr.isPanicked]
  · simp [Client.launch, AsyncClient.launch, hw, hso, hse, PanicOr.isPanicked]
  · simp only [Client.launch, AsyncClient.launch, hw, hso, hse]
    cases hs : out.status.success <;> cases combined <;>
      simp [PanicOr.isPanicked]

/-- C10 witness: a child writing the byte 255 to stdout makes the launch
panic. -/
theorem launch_panics_on_invalid_utf8_witness :
    utf8Decode? outBad.stdout = none ∧
    ((Client.launch (.ok childBad) true).isPanicked = true ∧
     (AsyncClient.launch (.ok (outBad, exitW)) true).isPanicked = true) :=
  ⟨by decide,
   (launch_panics_on_invalid_utf8 childBad outBad true exitW rfl).1 (by decide)⟩

/-- C2: the run operation of the synchronous client, given options carrying
a stdio attachment, spawns a freshly rebuilt command on which the wire-up
was never performed, and never invokes the release hook; the create
operation by contrast spawns the wired command and releases after a
successful launch. -/
theorem run_discards_wired_io_command :
    (Client.run clientW wOK "c1" "/bundle" (some optsIo)).1 =
      [Event.spawned (clientW.command ["run", "--bundle", "/bundle", "c1"])] ∧
    (clientW.command ["run", "--bundle", "/bundle", "c1"]).io_attached = false ∧
    Event.closedAfterStart ∉ (Client.run clientW wOK "c1" "/bundle" (some optsIo)).1 ∧
    (Client.create clientW wOK "c1" "/bundle" (some optsIo)).1 =
      [Event.spawned
        { clientW.command ["create", "--bundle", "/bundle", "c1"] with
          io_attached := true },
       Event.closedAfterStart] := by
  refine ⟨rfl, rfl, ?_, rfl⟩
  decide

/-- C7: whenever the builder succeeds, the global arguments of the built
Runc are exactly the root, debug, log, log-format, systemd-cgroup and
rootless groups in that fixed order, with unset options omitted and the
log-format flag always present, and every assembled command prepends them
before the verb arguments. -/
theorem global_flags_fixed_order
    (cfg : ConfigBuilder) (bp : String → Option String)
    (abs : String → Except Error String) (r : Runc)
    (h : cfg.build_runc bp abs = .ok r) :
    ∃ rr lr, opt_abs abs cfg.root = .ok rr ∧ opt_abs abs cfg.log = .ok lr ∧
      r.args = spec_global_flags rr cfg.debug lr cfg.log_format
        cfg.systemd_cgroup cfg.rootless ∧
      "--log-format" ∈ r.args ∧
      (∀ vargs, (r.commandOf vargs).args = r.args ++ vargs ∧
                (r.command_async vargs).args = r.args ++ vargs) := by
  unfold ConfigBuilder.build_runc at h
  cases hbp : bp (cfg.command.getD "runc") with
  | none => simp only [hbp] at h; exact absurd h (by simp)
  | some command =>
    simp only [hbp] at h
    cases hra : root_args cfg.root abs with
    | error e => simp only [hra] at h; exact absurd h (by simp)
    | ok a1 =>
      simp only [hra] at h
      cases hla : log_args cfg.log abs with
      | error e => simp only [hla] at h; exact absurd h (by simp)
      | ok a3 =>
        simp only [hla] at h
        obtain ⟨rr, hrr, ha1⟩ := root_args_ok _ _ _ hra
        obtain ⟨lr, hlr, ha3⟩ := log_args_ok _ _ _ hla
        injection h with h2
        subst h2
        refine ⟨rr, lr, hrr, hlr, ?_, ?_, fun vargs => ⟨rfl, rfl⟩⟩
        · rw [ha1, ha3]; rfl
        · simp

/-- C7 witness: the flag order evaluated at a concrete configuration with
root, debug and rootless set and log unset. -/
theorem global_flags_fixed_order_witness :
    cfgW.build_runc bpW absW = .ok runcW ∧
    (∃ rr lr, opt_abs absW cfgW.root = .ok rr ∧ opt_abs absW cfgW.log = .ok lr ∧
      runcW.args = spec_global_flags rr cfgW.debug lr cfgW.log_format
        cfgW.systemd_cgroup cfgW.rootless ∧
      "--log-format" ∈ runcW.args ∧
      (∀ vargs, (runcW.commandOf vargs).args = runcW.args ++ vargs ∧
                (runcW.command_async vargs).args = runcW.args ++ vargs)) :=
  ⟨rfl, global_flags_fixed_order cfgW bpW absW runcW rfl⟩

/-- C8: the update operation of either client, once the temporary filename
is obtained, the resource spec serialized and the file write succeeds,
records the file write strictly before any spawn, and every spawned command
carries the update verb, the resources flag, the temporary filename and the
id after the global arguments. -/
theorem update_writes_resources_before_spawn
    (c : Client) (a : AsyncClient) (w : SyncWorld) (aw : AsyncWorld)
    (id fn js : String)
    (h1 : w.temp_filename = .ok fn) (h2 : w.write_file fn js = .ok ())
    (h3 : aw.temp_filename = .ok fn) (h4 : aw.write_file fn js = .ok ()) :
    (∃ evs, (Client.update c w (.ok js) id).1 = Event.wroteFile fn js :: evs ∧
      ∀ cmd, Event.spawned cmd ∈ evs →
        cmd.args = c.runc.args ++ ["update", "--resources", fn, id]) ∧
    (∃ evs, (AsyncClient.update a aw (.ok js) id).1 = Event.wroteFile fn js :: evs ∧
      ∀ cmd, Event.spawned cmd ∈ evs →
        cmd.args = a.runc.args ++ ["update", "--resources", fn, id]) := by
  constructor
  · refine ⟨(Client.launchTraced w
      (c.command ["update", "--resources", fn, id]) true).1, ?_, ?_⟩
    · simp [Client.update, h1, h2]
    · intro cmd hmem
      unfold Client.launchTraced at hmem
      cases hs : w.spawn (c.command ["update", "--resources", fn, id]) <;>
        simp [hs] at hmem
      subst hmem
      rfl
  · refine ⟨(AsyncClient.launchTraced aw
      (a.command ["update", "--resources", fn, id]) true).1, ?_, ?_⟩
    · simp [AsyncClient.update, h3, h4]
    · intro cmd hmem
      unfold AsyncClient.launchTraced at hmem
      cases hs : aw.spawn (a.command ["update", "--resources", fn, id]) <;>
        simp [hs] at hmem
      subst hmem
      rfl

/-- C8 witness: the update sequencing evaluated in concrete worlds where the
spawn succeeds. -/
theorem update_writes_resources_before_spawn_witness :
    wOK.temp_filename = .ok "/tmp/runc-resources" ∧
    wOK.write_file "/tmp/runc-resources" "serialized-linux-resources" = .ok () ∧
    awOK.temp_filename = .ok "/tmp/runc-resources" ∧
    awOK.write_file "/tmp/runc-resources" "serialized-linux-resources" = .ok () ∧
    ((∃ evs, (Client.update clientW wOK (.ok "serialized-linux-resources") "c1").1 =
        Event.wroteFile "/tmp/runc-resources" "serialized-linux-resources" :: evs ∧
      ∀ cmd, Event.spawned cmd ∈ evs →
        cmd.args = clientW.runc.args ++
          ["update", "--resources", "/tmp/runc-resources", "c1"]) ∧
    (∃ evs, (AsyncClient.update asyncClientW awOK
        (.ok "serialized-linux-resources") "c1").1 =
        Event.wroteFile "/tmp/runc-resources" "serialized-linux-resources" :: evs ∧
      ∀ cmd, Event.spawned cmd ∈ evs →
        cmd.args = asyncClientW.runc.args ++
          ["update", "--resources", "/tmp/runc-resources", "c1"])) :=
  ⟨rfl, rfl, rfl, rfl,
   update_writes_resources_before_spawn clientW asyncClientW wOK awOK "c1"
     "/tmp/runc-resources" "serialized-linux-resources" rfl rfl rfl rfl⟩

end RuncSpec
